import Mathlib

/-
Verification of the vantage_weather Home Assistant integration.

The development shallowly embeds the data model and the operations of the
integration: the JSON payload fetched from the station, the update logic of
the coordinator (coordinator.py, method named async update data), the sensor
value projections (sensor.py) and the host validation of the config flow
(config_flow.py).  Network effects are modelled by an explicit fetch event;
the surrounding Home Assistant framework behaviour that the code relies on
(DataUpdateCoordinator caching and the availability flag of
CoordinatorEntity) is modelled by an explicit coordinator state and a
refresh-application step, following the documented contract of that
framework.
-/

namespace VantageWeather

/-- An exact decimal number: the value num divided by ten to the exp.
JSON numbers and finite Python float values are modelled with this exact
representation; the equality tests of the source compare values, never
representations, through PyFloat.eqInt. -/
structure Dec10 where
  num : Int
  exp : Nat
deriving Repr, DecidableEq

/-- A JSON value, as produced by parsing the response body of the station.
Objects model Python dictionaries with distinct keys; numbers carry the
exact decimal value of their literal. -/
inductive Json where
  | null
  | bool (b : Bool)
  | num (v : Dec10)
  | str (s : String)
  | arr (elems : List Json)
  | obj (fields : List (String × Json))

/-- Lookup of a key in the field list of a JSON object. -/
def lookupField : List (String × Json) → String → Option Json
  | [], _ => none
  | (k, v) :: rest, key => if k = key then some v else lookupField rest key

/-- Models Python dict.get on a JSON value: a key lookup that yields none on
a missing key and on a value that is not an object. -/
def Json.getKey : Json → String → Option Json
  | .obj fields, key => lookupField fields key
  | _, _ => none

/-- Models the Python membership test of a key against a decoded JSON
object. -/
def Json.hasKey (j : Json) (key : String) : Bool :=
  (j.getKey key).isSome

/-- Models Python truthiness of a decoded JSON value: None, False, zero,
the empty string and empty containers are falsy. -/
def Json.truthy : Json → Bool
  | .null => false
  | .bool b => b
  | .num v => decide (v.num ≠ 0)
  | .str s => decide (s ≠ "")
  | .arr elems => !elems.isEmpty
  | .obj fields => !fields.isEmpty

/-- Models Python str() of a decoded JSON value for the scalar cases the
integration feeds into string formatting; non-integer numbers and container
renderings are abbreviated because no code path under verification formats
them. -/
def Json.pyStr : Json → String
  | .str s => s
  | .num v => if v.exp = 0 then toString v.num else toString v.num ++ "e-" ++ toString v.exp
  | .bool b => if b then "True" else "False"
  | .null => "None"
  | .arr _ => "[...]"
  | .obj _ => "\x7b...\x7d"

/-- The result of the Python float builtin: a finite value (modelled as an
exact decimal), a signed infinity, or nan. -/
inductive PyFloat where
  | finite (v : Dec10)
  | inf (pos : Bool)
  | nan
deriving Repr, DecidableEq

/-- Equality comparison of a Python float against an integer literal, as in
the trend-code dispatch of the barometer trend sensor: a finite value
compares by value, infinities and nan compare unequal to every integer. -/
def PyFloat.eqInt : PyFloat → Int → Bool
  | .finite v, n => decide (v.num = n * (10 : Int) ^ v.exp)
  | _, _ => false

/-- The whitespace characters the Python strip method removes (the ASCII
subset; the unicode spaces never occur in station payloads). -/
def isPySpace (c : Char) : Bool :=
  c = ' ' || c = '\t' || c = '\n' || c = '\r' || c = '\x0b' || c = '\x0c'

/-- Models the Python strip method on a character list: leading and
trailing whitespace removed. -/
def pyStripChars (cs : List Char) : List Char :=
  ((cs.dropWhile isPySpace).reverse.dropWhile isPySpace).reverse

/-- Models the Python strip method on a string. -/
def pyStrip (s : String) : String :=
  String.mk (pyStripChars s.data)

/-- The numeric value of a list of decimal digit characters. -/
def digitsVal (cs : List Char) : Nat :=
  cs.foldl (fun a c => a * 10 + (c.toNat - 48)) 0

/-- Splits a character list into its longest prefix of decimal digits and
the rest. -/
def takeDigits : List Char → List Char × List Char
  | [] => ([], [])
  | c :: rest =>
    if c.isDigit then
      match takeDigits rest with
      | (ds, r) => (c :: ds, r)
    else ([], c :: rest)

/-- The exact decimal value of an integer part and a fraction part given
as digit lists. -/
def mantissa (ip fp : List Char) : Dec10 :=
  ⟨(digitsVal (ip ++ fp) : Int), fp.length⟩

/-- Parses an optional exponent suffix after a decimal mantissa and applies
it exactly; anything but a well-formed complete exponent fails. -/
def parseExp (m : Dec10) : List Char → Option Dec10
  | [] => some m
  | c :: rest =>
    if c = 'e' ∨ c = 'E' then
      let (negExp, r1) :=
        match rest with
        | '+' :: t => (false, t)
        | '-' :: t => (true, t)
        | t => (false, t)
      match takeDigits r1 with
      | (ds, r2) =>
        if ds.isEmpty ∨ !r2.isEmpty then none
        else
          let k := digitsVal ds
          if negExp then some ⟨m.num, m.exp + k⟩
          else some ⟨m.num * (10 : Int) ^ k, m.exp⟩
    else none

/-- Parses an unsigned decimal literal (digits, optional fraction, optional
exponent), requiring at least one digit in the mantissa and no trailing
characters. -/
def parseDecimal (cs : List Char) : Option Dec10 :=
  match takeDigits cs with
  | (ip, r1) =>
    match r1 with
    | '.' :: rest =>
      match takeDigits rest with
      | (fp, r2) =>
        if ip.isEmpty ∧ fp.isEmpty then none
        else parseExp (mantissa ip fp) r2
    | _ =>
      if ip.isEmpty then none else parseExp (mantissa ip []) r1

/-- Models the Python float builtin applied to a string: surrounding
whitespace is stripped, an optional sign is read, and the rest is either an
infinity or nan keyword (case insensitive) or a decimal literal.  A string
the builtin rejects with ValueError is mapped to none. -/
def parseFloat (s : String) : Option PyFloat :=
  let cs := pyStripChars s.data
  let (neg, body) :=
    match cs with
    | '+' :: rest => (false, rest)
    | '-' :: rest => (true, rest)
    | rest => (false, rest)
  let lower := String.mk (body.map Char.toLower)
  if lower = "inf" ∨ lower = "infinity" then some (.inf (!neg))
  else if lower = "nan" then some .nan
  else
    match parseDecimal body with
    | some v => some (.finite (if neg then ⟨-v.num, v.exp⟩ else v))
    | none => none

/-- Models the Python float builtin applied to a decoded JSON value, as in
the sensor code paths that wrap it in a try with ValueError and TypeError
handlers: numbers and booleans convert, strings are parsed, and every other
value fails (none). -/
def Json.pyFloat : Json → Option PyFloat
  | .num v => some (.finite v)
  | .bool b => some (.finite ⟨if b then 1 else 0, 0⟩)
  | .str s => parseFloat s
  | _ => none

/-- The body of a received response: either it decodes as JSON or the json
call fails (wrong content type or malformed JSON text). -/
inductive BodyResult where
  | ok (j : Json)
  | invalid

/-- The outcome of the single HTTP GET against the station, as observed by
the Python code: a connect failure (aiohttp ClientConnectorError), another
client error (aiohttp ClientError), a timeout, or a response carrying a
status code and a body. -/
inductive FetchEvent where
  | connectError
  | clientError
  | timeout
  | response (status : Nat) (body : BodyResult)

/-- The errors an update run can propagate.  The authFailed constructor
stands for ConfigEntryAuthFailed, which the source raises for HTTP 401;
because that raise sits inside the try block whose final clause catches
every Exception and re-raises UpdateFailed, no update run actually
propagates authFailed (proved below), so every observable failure is the
updateFailed constructor. -/
inductive UpdateError where
  | updateFailed (msg : String)
  | authFailed (msg : String)
deriving Repr, DecidableEq

/-- True exactly on the UpdateFailed constructor. -/
def UpdateError.isUpdateFailed : UpdateError → Bool
  | .updateFailed _ => true
  | .authFailed _ => false

/-- The update method of VantageWeatherDataUpdateCoordinator
(coordinator.py).  401 raises ConfigEntryAuthFailed before the status
check, but that exception is neither a ClientError nor a TimeoutError, so
the blanket except Exception clause of the same try block catches it and
re-raises UpdateFailed (with the Unexpected error message); the
distinguished error therefore never leaves the method.  Any other status of
at least 400 raises through raise for status, caught as a client error; a
body that fails to decode raises and is caught by the blanket clause; a
decoded body missing the rtd key or the info key raises UpdateFailed; a
body whose info value is not an object raises AttributeError in the eagerly
evaluated debug-log arguments (data.get of info followed by an attribute
get), again re-raised as UpdateFailed by the blanket clause; otherwise the
decoded payload is returned.  Connect errors, other client errors and
timeouts are caught and re-raised as UpdateFailed.  Message texts are
abbreviated to the stable leading words of the source messages. -/
def async_update_data : FetchEvent → Except UpdateError Json
  | .connectError => .error (.updateFailed "Error connecting to device")
  | .clientError => .error (.updateFailed "Error communicating with API")
  | .timeout => .error (.updateFailed "Timeout fetching data from API")
  | .response status body =>
    if status = 401 then .error (.updateFailed "Unexpected error fetching data")
    else if 400 ≤ status then .error (.updateFailed "Error communicating with API")
    else
      match body with
      | .invalid => .error (.updateFailed "Unexpected error fetching data")
      | .ok data =>
        if data.hasKey "rtd" && data.hasKey "info" then
          match data.getKey "info" with
          | some (.obj _) => .ok data
          | _ => .error (.updateFailed "Unexpected error fetching data")
        else .error (.updateFailed "Data missing rtd or info keys in response")

/-- The coordinator state the sensors observe: the cached payload and the
flag recording whether the latest refresh attempt succeeded.  Models the
data and last update success members of the framework
DataUpdateCoordinator. -/
structure CoordState where
  data : Option Json
  lastUpdateSuccess : Bool

/-- Models how the framework DataUpdateCoordinator absorbs the outcome of
one update call: a returned payload replaces the cached data and marks
success; a raised error leaves the cached data untouched and clears the
success flag. -/
def applyRefresh (st : CoordState) (r : Except UpdateError Json) : CoordState :=
  match r with
  | .ok payload => ⟨some payload, true⟩
  | .error _ => ⟨st.data, false⟩

/-- One full refresh cycle: run the update method on the fetch event and
absorb its outcome into the coordinator state. -/
def refreshStep (st : CoordState) (e : FetchEvent) : CoordState :=
  applyRefresh st (async_update_data e)

/-- The available property of VantageWeatherBaseSensor (sensor.py): the
framework availability (CoordinatorEntity.available, which is the last
update success flag of the coordinator) conjoined with the cached data
being present and containing the rtd key. -/
def available (st : CoordState) : Bool :=
  st.lastUpdateSuccess &&
    (match st.data with
     | some d => d.hasKey "rtd"
     | none => false)

/-- Lookup of a key inside the rtd group of the cached payload, as done by
the sensor value properties via data.get with an empty default. -/
def rtdLookup (st : CoordState) (key : String) : Option Json :=
  match st.data with
  | some d => ((d.getKey "rtd").getD (Json.obj [])).getKey key
  | none => none

/-- The Home Assistant device classes this integration uses (const.py rows
and the special timestamp sensor); the conversion from the strings of the
descriptor table is deviceClassOfString. -/
inductive DeviceClass where
  | temperature
  | humidity
  | pressure
  | windSpeed
  | precipitation
  | precipitationIntensity
  | irradiance
  | timestamp
deriving Repr, DecidableEq

/-- Models the SensorDeviceClass enum constructor applied to the strings
appearing in this integration; any other string fails (the sensor code then
falls back to no device class). -/
def deviceClassOfString (s : String) : Option DeviceClass :=
  if s = "temperature" then some DeviceClass.temperature
  else if s = "humidity" then some DeviceClass.humidity
  else if s = "pressure" then some DeviceClass.pressure
  else if s = "wind_speed" then some DeviceClass.windSpeed
  else if s = "precipitation" then some DeviceClass.precipitation
  else if s = "precipitation_intensity" then some DeviceClass.precipitationIntensity
  else if s = "irradiance" then some DeviceClass.irradiance
  else if s = "timestamp" then some DeviceClass.timestamp
  else none

/-- The string value of the DEGREE unit constant. -/
def DEGREE : String := "°"

/-- One row of the SENSOR_TYPES table of const.py: json key, entity name
suffix, unit (the Home Assistant unit constants are string valued), device
class string, state class string, icon. -/
structure SensorTypeRow where
  key : String
  nameSuffix : String
  unit : Option String
  deviceClassStr : Option String
  stateClassStr : Option String
  icon : Option String
deriving Repr, DecidableEq

/-- The SENSOR_TYPES table of const.py, with the unit constants replaced by
their string values (Fahrenheit "°F", percentage "%", miles per hour "mph",
degree "°", inches of mercury "inHg", inches "in", watts per square meter
"W/m²"). -/
def SENSOR_TYPES : List SensorTypeRow := [
  ⟨"tempin", "Inside Temperature", some "°F", some "temperature", some "measurement", some "mdi:home-thermometer"⟩,
  ⟨"tempout", "Outside Temperature", some "°F", some "temperature", some "measurement", none⟩,
  ⟨"heat", "Heat Index", some "°F", some "temperature", some "measurement", none⟩,
  ⟨"chill", "Wind Chill", some "°F", some "temperature", some "measurement", none⟩,
  ⟨"humin", "Inside Humidity", some "%", some "humidity", some "measurement", some "mdi:water-percent"⟩,
  ⟨"humout", "Outside Humidity", some "%", some "humidity", some "measurement", none⟩,
  ⟨"cdew", "Dew Point", some "°F", some "temperature", some "measurement", none⟩,
  ⟨"windspd", "Current Wind Speed", some "mph", some "wind_speed", some "measurement", some "mdi:weather-windy"⟩,
  ⟨"winddir", "Current Wind Direction", some "°", none, some "measurement", some "mdi:compass-outline"⟩,
  ⟨"windavg2", "2 Min Avg Wind Speed", some "mph", some "wind_speed", some "measurement", some "mdi:weather-windy"⟩,
  ⟨"windavg10", "10 Min Avg Wind Speed", some "mph", some "wind_speed", some "measurement", some "mdi:weather-windy"⟩,
  ⟨"gust", "10 Min Wind Gust", some "mph", some "wind_speed", some "measurement", some "mdi:weather-windy-variant"⟩,
  ⟨"gustdir", "Wind Gust Direction", some "°", none, some "measurement", some "mdi:compass-outline"⟩,
  ⟨"bar", "Barometer", some "inHg", some "pressure", some "measurement", some "mdi:gauge"⟩,
  ⟨"rainr", "Rain Rate", none, some "precipitation_intensity", some "measurement", some "mdi:weather-pouring"⟩,
  ⟨"raind", "Rain Daily", some "in", some "precipitation", some "total_increasing", some "mdi:weather-rainy"⟩,
  ⟨"storm", "Rain Storm", some "in", some "precipitation", some "total_increasing", some "mdi:weather-lightning-rainy"⟩,
  ⟨"rainmon", "Rain Month", some "in", some "precipitation", some "total_increasing", some "mdi:calendar-month"⟩,
  ⟨"rainyear", "Rain Year", some "in", some "precipitation", some "total_increasing", some "mdi:calendar-star"⟩,
  ⟨"rain1h", "Rain 1 Hour", some "in", some "precipitation", some "total", some "mdi:clock-time-one-outline"⟩,
  ⟨"rain24", "Rain 24 Hour", some "in", some "precipitation", some "total", some "mdi:clock-time-twelve-outline"⟩,
  ⟨"solar", "Solar Radiation", some "W/m²", some "irradiance", some "measurement", some "mdi:solar-power"⟩,
  ⟨"uv", "UV Index", none, none, some "measurement", some "mdi:sun-wireless-outline"⟩]

/-- The attributes of a constructed VantageWeatherStandardSensor that its
value property consults: the rtd key, the resolved device class and the
resolved native unit of measurement. -/
structure SensorConfig where
  sensorBaseKey : String
  jsonDataKey : String
  deviceClass : Option DeviceClass
  nativeUnit : Option String
deriving Repr, DecidableEq

/-- The constructor logic of VantageWeatherStandardSensor (sensor.py): the
unit is taken from the table row unchanged (the revised unit mapping of the
source is empty, so every string maps to itself); a row with device class
precipitation_intensity and no unit derives inches per hour; the device
class string is converted through the enum constructor, falling back to
none when invalid. -/
def mkSensorConfig (row : SensorTypeRow) : SensorConfig :=
  let unit0 := row.unit
  let unit1 :=
    if row.deviceClassStr = some "precipitation_intensity" ∧ unit0 = none
    then some "in/h" else unit0
  let dc := row.deviceClassStr.bind deviceClassOfString
  ⟨row.key, row.key, dc, unit1⟩

/-- The sensor configurations produced from the descriptor table at setup
time. -/
def standardSensorConfigs : List SensorConfig :=
  SENSOR_TYPES.map mkSensorConfig

/-- The device classes the value property treats as numeric measurements
(the list literal inside native value in sensor.py). -/
def numericDeviceClasses : List DeviceClass :=
  [DeviceClass.temperature, DeviceClass.humidity, DeviceClass.pressure,
   DeviceClass.windSpeed, DeviceClass.precipitation,
   DeviceClass.precipitationIntensity, DeviceClass.irradiance]

/-- The condition named is numeric conversion needed in the value property
of VantageWeatherStandardSensor: a numeric device class, or the degree unit
with no device class, or the uv key with no unit. -/
def is_numeric_conversion_needed (c : SensorConfig) : Bool :=
  (match c.deviceClass with
   | some dc => decide (dc ∈ numericDeviceClasses)
   | none => false)
  || (decide (c.nativeUnit = some DEGREE) && decide (c.deviceClass = none))
  || (decide (c.sensorBaseKey = "uv") && decide (c.nativeUnit = none))

/-- A wall-clock date and time without a zone, as produced by the datetime
strptime call of the last update sensor. -/
structure NaiveDateTime where
  year : Nat
  month : Nat
  day : Nat
  hour : Nat
  minute : Nat
  second : Nat
deriving Repr, DecidableEq

/-- Gregorian leap year rule, as enforced by the datetime constructor when
it validates the day of the month. -/
def isLeapYear (y : Nat) : Bool :=
  (decide (y % 4 = 0) && decide (y % 100 ≠ 0)) || decide (y % 400 = 0)

/-- Number of days in a month, as enforced by the datetime constructor. -/
def daysInMonth (y m : Nat) : Nat :=
  if m = 2 then (if isLeapYear y then 29 else 28)
  else if m = 4 ∨ m = 6 ∨ m = 9 ∨ m = 11 then 30
  else 31

/-- An aware datetime as produced by the astimezone conversion: the instant
it denotes, carried as UTC wall-clock fields, together with the utc offset
in minutes of the attached zone (the configured Home Assistant zone is
modelled as a fixed offset). -/
structure AwareDateTime where
  utc : NaiveDateTime
  offsetMinutes : Int
deriving Repr, DecidableEq

/-- Models dt util as local applied to a naive datetime under a configured
zone of the given fixed utc offset.  The function converts a UTC datetime
to the local zone: a naive input is first stamped as UTC (replace with
tzinfo UTC, keeping the fields as the UTC instant) and then converted with
astimezone, which keeps the instant and attaches the configured zone.  The
wall clock the result displays in the configured zone is therefore the
input shifted by the offset, not the input itself. -/
def as_local (offsetMinutes : Int) (n : NaiveDateTime) : AwareDateTime :=
  ⟨n, offsetMinutes⟩

/-- Epoch day number of a civil date (days since 1970-01-01, Gregorian). -/
def daysFromCivil (y m d : Int) : Int :=
  let y2 := if m ≤ 2 then y - 1 else y
  let era := Int.fdiv y2 400
  let yoe := y2 - era * 400
  let mp := Int.fmod (m + 9) 12
  let doy := Int.fdiv (153 * mp + 2) 5 + d - 1
  let doe := yoe * 365 + Int.fdiv yoe 4 - Int.fdiv yoe 100 + doy
  era * 146097 + doe - 719468

/-- Civil date of an epoch day number (inverse of daysFromCivil). -/
def civilFromDays (z : Int) : Int × Int × Int :=
  let z2 := z + 719468
  let era := Int.fdiv z2 146097
  let doe := z2 - era * 146097
  let yoe := Int.fdiv
    (doe - Int.fdiv doe 1460 + Int.fdiv doe 36524 - Int.fdiv doe 146096) 365
  let y := yoe + era * 400
  let doy := doe - (365 * yoe + Int.fdiv yoe 4 - Int.fdiv yoe 100)
  let mp := Int.fdiv (5 * doy + 2) 153
  let d := doy - Int.fdiv (153 * mp + 2) 5 + 1
  let m := mp + (if mp < 10 then 3 else -9)
  (if m ≤ 2 then y + 1 else y, m, d)

/-- Minutes from the epoch of the date, hour and minute fields. -/
def toEpochMinutes (n : NaiveDateTime) : Int :=
  daysFromCivil (n.year : Int) (n.month : Int) (n.day : Int) * 1440 +
    (n.hour : Int) * 60 + (n.minute : Int)

/-- The wall-clock fields at a given number of minutes from the epoch,
carrying the given seconds field. -/
def ofEpochMinutes (t : Int) (second : Nat) : NaiveDateTime :=
  let days := Int.fdiv t 1440
  let rem := Int.fmod t 1440
  match civilFromDays days with
  | (y, m, d) =>
    ⟨y.toNat, m.toNat, d.toNat, (Int.fdiv rem 60).toNat, (Int.fmod rem 60).toNat, second⟩

/-- Shifts wall-clock fields by a whole number of minutes, with calendar
rollover. -/
def addMinutes (n : NaiveDateTime) (k : Int) : NaiveDateTime :=
  ofEpochMinutes (toEpochMinutes n + k) n.second

/-- The wall-clock fields an aware datetime displays in its attached zone:
the UTC instant shifted by the zone offset (what astimezone stores and what
the host renders for a timestamp entity). -/
def localWallClock (a : AwareDateTime) : NaiveDateTime :=
  addMinutes a.utc a.offsetMinutes

/-- Reads a run of one or two digits and checks it against an inclusive
range, as the strptime field patterns combined with the datetime
constructor validation do for month, day, hour, minute and second. -/
def parseField (cs : List Char) (lo hi : Nat) : Option (Nat × List Char) :=
  match takeDigits cs with
  | (ds, r) =>
    if ds.length = 0 ∨ 2 < ds.length then none
    else
      let v := digitsVal ds
      if lo ≤ v ∧ v ≤ hi then some (v, r) else none

/-- Consumes one expected literal character. -/
def expectChar (c : Char) : List Char → Option (List Char)
  | [] => none
  | c2 :: rest => if c2 = c then some rest else none

/-- Models datetime strptime with the format string of the last update
sensor (four digit year, slash, month, slash, day, space, hour, colon,
minute, colon, second), including the field range checks and the day of
month validation the datetime constructor performs; any mismatch or
trailing text yields none (the ValueError path of the source). -/
def parseDateTimeChars (cs : List Char) : Option NaiveDateTime := do
  let (ys, r1) := takeDigits cs
  guard (ys.length = 4)
  let y := digitsVal ys
  guard (1 ≤ y)
  let r2 ← expectChar '/' r1
  let (mo, r3) ← parseField r2 1 12
  let r4 ← expectChar '/' r3
  let (d, r5) ← parseField r4 1 31
  guard (d ≤ daysInMonth y mo)
  let r6 ← expectChar ' ' r5
  let (h, r7) ← parseField r6 0 23
  let r8 ← expectChar ':' r7
  let (mi, r9) ← parseField r8 0 59
  let r10 ← expectChar ':' r9
  let (s, r11) ← parseField r10 0 59
  guard r11.isEmpty
  pure ⟨y, mo, d, h, mi, s⟩

/-- Models datetime strptime on a composed date and time string. -/
def strptimeDateTime (s : String) : Option NaiveDateTime :=
  parseDateTimeChars s.data

/-- A projected sensor value: a text label, a number, a raw JSON value
passed through, or an aware timestamp. -/
inductive SensorValue where
  | text (s : String)
  | num (v : PyFloat)
  | raw (j : Json)
  | time (t : AwareDateTime)

/-- The tail of the value property of VantageWeatherStandardSensor after
the null and blank-string guards: when numeric conversion is needed the
float call is attempted, with failure yielding none (the caught ValueError
or TypeError path); otherwise the raw value passes through. -/
def standardConvert (c : SensorConfig) (v : Json) : Option SensorValue :=
  if is_numeric_conversion_needed c then
    match v.pyFloat with
    | some f => some (.num f)
    | none => none
  else some (.raw v)

/-- The value property of VantageWeatherStandardSensor (sensor.py): none
when unavailable; lookup of the json data key inside the rtd group, none
when missing; none on a JSON null; none on a string that trims to the
placeholder dashes or to empty; otherwise the conversion tail. -/
def standard_native_value (c : SensorConfig) (st : CoordState) : Option SensorValue :=
  if available st then
    match rtdLookup st c.jsonDataKey with
    | none => none
    | some Json.null => none
    | some (Json.str s) =>
      if pyStrip s = "---" ∨ pyStrip s = "" then none
      else standardConvert c (Json.str s)
    | some v => standardConvert c v
  else none

/-- The value property of VantageWeatherBaroTrendSensor (sensor.py): none
when unavailable or when the bartr key is missing from the rtd group; the
label Unknown when the float call on the raw value fails; otherwise the
exact-match dispatch on the trend code with the placeholder dashes for any
unmapped numeric value. -/
def baro_trend_native_value (st : CoordState) : Option SensorValue :=
  if available st then
    match rtdLookup st "bartr" with
    | none => none
    | some v =>
      match v.pyFloat with
      | none => some (.text "Unknown")
      | some f =>
        if f.eqInt (-60) then some (.text "Falling Rapidly")
        else if f.eqInt (-20) then some (.text "Falling Slowly")
        else if f.eqInt 0 then some (.text "Steady")
        else if f.eqInt 20 then some (.text "Rising Slowly")
        else if f.eqInt 60 then some (.text "Rising Rapidly")
        else some (.text "---")
  else none

/-- The value property of VantageWeatherLastUpdateSensor (sensor.py),
under a configured zone of the given fixed utc offset: none when
unavailable; the date and time values are read from the rtd group, and when
both are truthy the formatted composition is parsed with strptime and
passed through dt util as local (which stamps the naive result as UTC and
attaches the configured zone), a parse failure or a missing or falsy
component yielding none. -/
def last_update_native_value (tzOffset : Int) (st : CoordState) : Option SensorValue :=
  if available st then
    match rtdLookup st "date", rtdLookup st "time" with
    | some dv, some tv =>
      if dv.truthy && tv.truthy then
        match strptimeDateTime (dv.pyStr ++ " " ++ tv.pyStr) with
        | some n => some (.time (as_local tzOffset n))
        | none => none
      else none
    | _, _ => none
  else none

/-- The outcome of validate host connection in config_flow.py: either the
derived unique id and title, or the ConnectionError it raises. -/
inductive ValidateResult where
  | ok (uniqueId : String) (title : String)
  | connectionError (msg : String)
deriving Repr, DecidableEq

/-- validate host connection (config_flow.py): connect failures and
timeouts, HTTP statuses of at least 400 (through raise for status), and
bodies that fail to decode as JSON all raise ConnectionError.  A body that
decodes to a non-object raises AttributeError at the data.get call, and a
body whose info member is present but not an object raises AttributeError
at the subsequent attribute get on it (the get-with-default only applies
when the key is absent); both are caught by the generic handler and
re-raised as ConnectionError.  An object body with no info member uses an
empty info dictionary, so both lookups fall back; an object body with an
object info member yields the unique id from its wid field, falling back
to the prefixed host when absent or falsy, and the title from its stnname
field, falling back to the host.  Message texts are abbreviated to the
stable leading words of the source messages. -/
def validate_host_connection (host : String) (e : FetchEvent) : ValidateResult :=
  match e with
  | .connectError => .connectionError "Cannot connect to device"
  | .timeout => .connectionError "Cannot connect to device"
  | .clientError => .connectionError "An unexpected error occurred"
  | .response status body =>
    if 400 ≤ status then .connectionError "HTTP error"
    else
      match body with
      | .invalid => .connectionError "Device returned non-JSON data"
      | .ok j =>
        match j with
        | .obj fields =>
          match (Json.obj fields).getKey "info" with
          | none => .ok ("vantage_weather_" ++ host) host
          | some (.obj infoFields) =>
            let uniqueId :=
              match (Json.obj infoFields).getKey "wid" with
              | some v => if v.truthy then v.pyStr else "vantage_weather_" ++ host
              | none => "vantage_weather_" ++ host
            let title :=
              match (Json.obj infoFields).getKey "stnname" with
              | some v => if v.truthy then v.pyStr else host
              | none => host
            .ok uniqueId title
          | some _ => .connectionError "An unexpected error occurred"
        | _ => .connectionError "An unexpected error occurred"

/-- Availability characterised: the framework success flag must be set and
the cached payload must exist and contain the rtd key. -/
theorem available_eq_true_iff (st : CoordState) :
    available st = true ↔
      (st.lastUpdateSuccess = true ∧ ∃ d, st.data = some d ∧ d.hasKey "rtd" = true) := by
  unfold available
  cases hd : st.data with
  | none => simp
  | some d => simp

/-- Every run of the update method either returns a payload containing both
the rtd and the info keys or raises UpdateFailed. -/
theorem update_data_cases (e : FetchEvent) :
    (∃ j, async_update_data e = .ok j ∧ j.hasKey "rtd" = true ∧ j.hasKey "info" = true) ∨
    (∃ m, async_update_data e = .error (.updateFailed m)) := by
  cases e with
  | connectError => exact Or.inr ⟨_, rfl⟩
  | clientError => exact Or.inr ⟨_, rfl⟩
  | timeout => exact Or.inr ⟨_, rfl⟩
  | response s body =>
    by_cases h1 : s = 401
    · exact Or.inr ⟨"Unexpected error fetching data", by simp [async_update_data, h1]⟩
    · by_cases h2 : 400 ≤ s
      · exact Or.inr ⟨"Error communicating with API",
          by simp [async_update_data, h1, h2]⟩
      · cases body with
        | invalid =>
          exact Or.inr ⟨"Unexpected error fetching data",
            by simp [async_update_data, h1, h2]⟩
        | ok j =>
          by_cases h3 : (j.hasKey "rtd" && j.hasKey "info") = true
          · rw [Bool.and_eq_true] at h3
            rcases hv : j.getKey "info" with _ | v
            · exfalso
              have h32 := h3.2
              simp [Json.hasKey, hv] at h32
            · cases v with
              | obj infoFields =>
                exact Or.inl ⟨j,
                  by simp [async_update_data, h1, h2, h3.1, h3.2, hv], h3.1, h3.2⟩
              | null =>
                exact Or.inr ⟨"Unexpected error fetching data",
                  by simp [async_update_data, h1, h2, h3.1, h3.2, hv]⟩
              | bool b =>
                exact Or.inr ⟨"Unexpected error fetching data",
                  by simp [async_update_data, h1, h2, h3.1, h3.2, hv]⟩
              | num q =>
                exact Or.inr ⟨"Unexpected error fetching data",
                  by simp [async_update_data, h1, h2, h3.1, h3.2, hv]⟩
              | str s2 =>
                exact Or.inr ⟨"Unexpected error fetching data",
                  by simp [async_update_data, h1, h2, h3.1, h3.2, hv]⟩
              | arr l =>
                exact Or.inr ⟨"Unexpected error fetching data",
                  by simp [async_update_data, h1, h2, h3.1, h3.2, hv]⟩
          · rw [Bool.not_eq_true] at h3
            exact Or.inr ⟨"Data missing rtd or info keys in response",
              by simp [async_update_data, h1, h2, h3]⟩

/-- Claim C1: a fetch whose body parses as JSON but lacks the rtd key or
the info key makes the refresh fail with UpdateFailed, and applying the
failed refresh leaves the cached payload of the coordinator unchanged. -/
theorem claim_C1 (st : CoordState) (s : Nat) (j : Json)
    (hs1 : s ≠ 401) (hs2 : s < 400)
    (hj : j.hasKey "rtd" = false ∨ j.hasKey "info" = false) :
    (∃ msg, async_update_data (.response s (.ok j)) = .error (.updateFailed msg)) ∧
    (applyRefresh st (async_update_data (.response s (.ok j)))).data = st.data := by
  have h400 : ¬ (400 ≤ s) := by omega
  have hcond : (j.hasKey "rtd" && j.hasKey "info") = false := by
    rcases hj with h | h <;> simp [h]
  constructor
  · exact ⟨"Data missing rtd or info keys in response",
      by simp [async_update_data, hs1, h400, hcond]⟩
  · simp [async_update_data, hs1, h400, hcond, applyRefresh]

/-- Witness for claim C1 at a concrete payload missing the info key. -/
theorem claim_C1_witness :
    (∃ msg, async_update_data (.response 200 (.ok (Json.obj [("rtd", Json.obj [])]))) =
      .error (.updateFailed msg)) ∧
    (applyRefresh ⟨some (Json.obj [("rtd", Json.obj []), ("info", Json.obj [])]), true⟩
      (async_update_data (.response 200 (.ok (Json.obj [("rtd", Json.obj [])]))))).data =
      some (Json.obj [("rtd", Json.obj []), ("info", Json.obj [])]) :=
  claim_C1 ⟨some (Json.obj [("rtd", Json.obj []), ("info", Json.obj [])]), true⟩ 200
    (Json.obj [("rtd", Json.obj [])]) (by decide) (by decide) (Or.inr (by decide))

/-- Claim C3, counterexample to the literal statement: after a successful
refresh cached a payload containing the rtd group, one failed refresh
leaves the payload cached with its rtd group, yet the sensor availability
property reports false, because the framework availability conjunct tracks
the success of the latest refresh. -/
theorem claim_C3_counterexample :
    (applyRefresh
      (refreshStep ⟨none, true⟩
        (.response 200 (.ok (Json.obj [("rtd", Json.obj []), ("info", Json.obj [])]))))
      (async_update_data .timeout)).data =
      some (Json.obj [("rtd", Json.obj []), ("info", Json.obj [])]) ∧
    (Json.obj [("rtd", Json.obj []), ("info", Json.obj [])]).hasKey "rtd" = true ∧
    available
      (refreshStep ⟨none, true⟩
        (.response 200 (.ok (Json.obj [("rtd", Json.obj []), ("info", Json.obj [])])))) = true ∧
    available
      (applyRefresh
        (refreshStep ⟨none, true⟩
          (.response 200 (.ok (Json.obj [("rtd", Json.obj []), ("info", Json.obj [])]))))
        (async_update_data .timeout)) = false :=
  ⟨rfl, rfl, rfl, rfl⟩

/-- Claim C3 as amended: a sensor reports available exactly when the latest
refresh attempt succeeded and the cached payload contains an rtd group; a
failed refresh keeps the last good payload cached but clears availability
until a refresh succeeds again. -/
theorem claim_C3 :
    (∀ st : CoordState, available st = true ↔
      (st.lastUpdateSuccess = true ∧ ∃ d, st.data = some d ∧ d.hasKey "rtd" = true)) ∧
    (∀ (st : CoordState) (err : UpdateError),
      (applyRefresh st (.error err)).data = st.data ∧
      available (applyRefresh st (.error err)) = false) := by
  constructor
  · exact available_eq_true_iff
  · intro st err
    exact ⟨rfl, by simp [available, applyRefresh]⟩

/-- Claim C8, the code evaluated at the failing input: an HTTP 401 response
makes the refresh fail with the transient UpdateFailed, not with the
distinguished ConfigEntryAuthFailed the source raises and the claim
demands, because the blanket except Exception clause of the same try block
intercepts the auth error and re-raises UpdateFailed; indeed no update run
whatsoever propagates the auth error. -/
theorem claim_C8 :
    (∀ b : BodyResult,
      async_update_data (.response 401 b) =
        .error (.updateFailed "Unexpected error fetching data")) ∧
    (∀ (e : FetchEvent) (m : String),
      async_update_data e ≠ .error (.authFailed m)) := by
  constructor
  · intro b
    simp [async_update_data]
  · intro e m
    rcases update_data_cases e with ⟨j, hj, _, _⟩ | ⟨m2, hm⟩
    · rw [hj]; simp
    · rw [hm]; simp

/-- Claim C9: every refresh either returns a payload containing both the
rtd and the info groups or raises, and one refresh step leaves the cached
payload either unchanged or equal to such a fully validated payload, so
the cache is never partially overwritten. -/
theorem claim_C9 :
    (∀ e : FetchEvent,
      (∃ j, async_update_data e = .ok j ∧ j.hasKey "rtd" = true ∧ j.hasKey "info" = true) ∨
      (∃ err, async_update_data e = .error err)) ∧
    (∀ (st : CoordState) (e : FetchEvent),
      (refreshStep st e).data = st.data ∨
      (∃ j, (refreshStep st e).data = some j ∧
        j.hasKey "rtd" = true ∧ j.hasKey "info" = true)) := by
  constructor
  · intro e
    rcases update_data_cases e with h | ⟨m, hm⟩
    · exact Or.inl h
    · exact Or.inr ⟨.updateFailed m, hm⟩
  · intro st e
    rcases update_data_cases e with ⟨j, hj, h1, h2⟩ | ⟨m, herr⟩
    · exact Or.inr ⟨j, by simp [refreshStep, hj, applyRefresh], h1, h2⟩
    · exact Or.inl (by simp [refreshStep, herr, applyRefresh])

/-- A Python float equal to one integer is unequal to every other
integer. -/
theorem eqInt_exclusive (f : PyFloat) (a b : Int) (hab : a ≠ b)
    (h : f.eqInt a = true) : f.eqInt b = false := by
  cases f with
  | finite v =>
    simp only [PyFloat.eqInt, decide_eq_true_eq, decide_eq_false_iff_not] at h ⊢
    intro hb
    apply hab
    have h10 : ((10 : Int) ^ v.exp) ≠ 0 := pow_ne_zero _ (by norm_num)
    have hmul : a * (10 : Int) ^ v.exp = b * (10 : Int) ^ v.exp := by rw [← h, ← hb]
    exact mul_right_cancel₀ h10 hmul
  | inf p => simp [PyFloat.eqInt] at h
  | nan => simp [PyFloat.eqInt] at h

/-- Claim C4: the barometer trend sensor decodes the bartr value by exact
numeric match, mapping the five known trend codes to their labels, any
other numeric value to the placeholder dashes, a non numeric value to the
Unknown label, and a missing bartr key to null. -/
theorem claim_C4 (st : CoordState) (hav : available st = true) :
    (rtdLookup st "bartr" = none → baro_trend_native_value st = none) ∧
    (∀ v : Json, rtdLookup st "bartr" = some v → v.pyFloat = none →
      baro_trend_native_value st = some (.text "Unknown")) ∧
    (∀ (v : Json) (f : PyFloat), rtdLookup st "bartr" = some v → v.pyFloat = some f →
      ((f.eqInt (-60) = true → baro_trend_native_value st = some (.text "Falling Rapidly")) ∧
       (f.eqInt (-20) = true → baro_trend_native_value st = some (.text "Falling Slowly")) ∧
       (f.eqInt 0 = true → baro_trend_native_value st = some (.text "Steady")) ∧
       (f.eqInt 20 = true → baro_trend_native_value st = some (.text "Rising Slowly")) ∧
       (f.eqInt 60 = true → baro_trend_native_value st = some (.text "Rising Rapidly")) ∧
       (f.eqInt (-60) = false → f.eqInt (-20) = false → f.eqInt 0 = false →
        f.eqInt 20 = false → f.eqInt 60 = false →
        baro_trend_native_value st = some (.text "---")))) := by
  refine ⟨?_, ?_, ?_⟩
  · intro h
    simp [baro_trend_native_value, hav, h]
  · intro v hv hpf
    simp [baro_trend_native_value, hav, hv, hpf]
  · intro v f hv hpf
    refine ⟨?_, ?_, ?_, ?_, ?_, ?_⟩
    · intro h1
      simp [baro_trend_native_value, hav, hv, hpf, h1]
    · intro h2
      have e1 := eqInt_exclusive f (-20) (-60) (by decide) h2
      simp [baro_trend_native_value, hav, hv, hpf, h2, e1]
    · intro h3
      have e1 := eqInt_exclusive f 0 (-60) (by decide) h3
      have e2 := eqInt_exclusive f 0 (-20) (by decide) h3
      simp [baro_trend_native_value, hav, hv, hpf, h3, e1, e2]
    · intro h4
      have e1 := eqInt_exclusive f 20 (-60) (by decide) h4
      have e2 := eqInt_exclusive f 20 (-20) (by decide) h4
      have e3 := eqInt_exclusive f 20 0 (by decide) h4
      simp [baro_trend_native_value, hav, hv, hpf, h4, e1, e2, e3]
    · intro h5
      have e1 := eqInt_exclusive f 60 (-60) (by decide) h5
      have e2 := eqInt_exclusive f 60 (-20) (by decide) h5
      have e3 := eqInt_exclusive f 60 0 (by decide) h5
      have e4 := eqInt_exclusive f 60 20 (by decide) h5
      simp [baro_trend_native_value, hav, hv, hpf, h5, e1, e2, e3, e4]
    · intro n1 n2 n3 n4 n5
      simp [baro_trend_native_value, hav, hv, hpf, n1, n2, n3, n4, n5]

/-- Witness for claim C4 at a payload carrying the trend code string 20. -/
theorem claim_C4_witness :
    baro_trend_native_value
      ⟨some (Json.obj [("rtd", Json.obj [("bartr", Json.str "20")]), ("info", Json.obj [])]),
       true⟩ = some (.text "Rising Slowly") :=
  ((claim_C4
      ⟨some (Json.obj [("rtd", Json.obj [("bartr", Json.str "20")]), ("info", Json.obj [])]),
       true⟩ rfl).2.2
    (Json.str "20") (PyFloat.finite ⟨20, 0⟩) rfl (by decide)).2.2.2.1 (by decide)

/-- Claim C5: for every descriptor table sensor, a raw rtd value that is
missing, null, the placeholder dashes, or blank after stripping projects
to null. -/
theorem claim_C5 (row : SensorTypeRow) (_hrow : row ∈ SENSOR_TYPES) (st : CoordState)
    (hav : available st = true) :
    (rtdLookup st (mkSensorConfig row).jsonDataKey = none →
      standard_native_value (mkSensorConfig row) st = none) ∧
    (rtdLookup st (mkSensorConfig row).jsonDataKey = some Json.null →
      standard_native_value (mkSensorConfig row) st = none) ∧
    (∀ s : String, rtdLookup st (mkSensorConfig row).jsonDataKey = some (Json.str s) →
      (pyStrip s = "---" ∨ pyStrip s = "") →
      standard_native_value (mkSensorConfig row) st = none) := by
  refine ⟨?_, ?_, ?_⟩
  · intro h
    simp [standard_native_value, hav, h]
  · intro h
    simp [standard_native_value, hav, h]
  · intro s h hblank
    simp only [standard_native_value, hav, if_true, h]
    rw [if_pos hblank]

/-- Witness for claim C5: the outside temperature descriptor projects the
placeholder dashes to null. -/
theorem claim_C5_witness :
    standard_native_value
      (mkSensorConfig ⟨"tempout", "Outside Temperature", some "°F", some "temperature",
        some "measurement", none⟩)
      ⟨some (Json.obj [("rtd", Json.obj [("tempout", Json.str "---")]), ("info", Json.obj [])]),
       true⟩ = none :=
  (claim_C5 ⟨"tempout", "Outside Temperature", some "°F", some "temperature",
      some "measurement", none⟩ (by decide)
    ⟨some (Json.obj [("rtd", Json.obj [("tempout", Json.str "---")]), ("info", Json.obj [])]),
     true⟩ rfl).2.2 "---" rfl (Or.inl rfl)

/-- Claim C6: for every descriptor table sensor that requires a numeric
measurement (numeric device class, unlabeled degree value, or the uv field
with no unit), a raw value that passes the null and blank guards is coerced
with the float builtin: the coerced number is projected on success, and a
coercion failure projects to null instead of raising. -/
theorem claim_C6 (row : SensorTypeRow) (_hrow : row ∈ SENSOR_TYPES)
    (hnum : (∃ dc, (mkSensorConfig row).deviceClass = some dc ∧ dc ∈ numericDeviceClasses) ∨
      ((mkSensorConfig row).nativeUnit = some DEGREE ∧ (mkSensorConfig row).deviceClass = none) ∨
      ((mkSensorConfig row).sensorBaseKey = "uv" ∧ (mkSensorConfig row).nativeUnit = none))
    (st : CoordState) (v : Json) (hav : available st = true)
    (hlook : rtdLookup st (mkSensorConfig row).jsonDataKey = some v)
    (hstr : ∀ s : String, v = Json.str s → pyStrip s ≠ "---" ∧ pyStrip s ≠ "")
    (hnull : v ≠ Json.null) :
    (v.pyFloat = none → standard_native_value (mkSensorConfig row) st = none) ∧
    (∀ f : PyFloat, v.pyFloat = some f →
      standard_native_value (mkSensorConfig row) st = some (SensorValue.num f)) := by
  have hneed : is_numeric_conversion_needed (mkSensorConfig row) = true := by
    rcases hnum with ⟨dc, hdc, hmem⟩ | ⟨hu, hdc⟩ | ⟨hk, hu⟩
    · simp [is_numeric_conversion_needed, hdc, hmem]
    · simp [is_numeric_conversion_needed, hu, hdc]
    · simp [is_numeric_conversion_needed, hk, hu]
  have key : standard_native_value (mkSensorConfig row) st =
      standardConvert (mkSensorConfig row) v := by
    cases v with
    | null => exact absurd rfl hnull
    | str s =>
      obtain ⟨h1, h2⟩ := hstr s rfl
      simp [standard_native_value, hav, hlook, h1, h2]
    | bool b => simp [standard_native_value, hav, hlook]
    | num q => simp [standard_native_value, hav, hlook]
    | arr l => simp [standard_native_value, hav, hlook]
    | obj fs => simp [standard_native_value, hav, hlook]
  constructor
  · intro hpf
    rw [key]
    simp [standardConvert, hneed, hpf]
  · intro f hpf
    rw [key]
    simp [standardConvert, hneed, hpf]

/-- Witness for claim C6: the outside temperature descriptor projects a non
numeric raw value to null and a numeric raw string to its coerced value. -/
theorem claim_C6_witness :
    standard_native_value
      (mkSensorConfig ⟨"tempout", "Outside Temperature", some "°F", some "temperature",
        some "measurement", none⟩)
      ⟨some (Json.obj [("rtd", Json.obj [("tempout", Json.str "abc")]), ("info", Json.obj [])]),
       true⟩ = none ∧
    standard_native_value
      (mkSensorConfig ⟨"tempout", "Outside Temperature", some "°F", some "temperature",
        some "measurement", none⟩)
      ⟨some (Json.obj [("rtd", Json.obj [("tempout", Json.str "72.5")]), ("info", Json.obj [])]),
       true⟩ = some (SensorValue.num (PyFloat.finite ⟨725, 1⟩)) := by
  constructor
  · exact (claim_C6 ⟨"tempout", "Outside Temperature", some "°F", some "temperature",
        some "measurement", none⟩ (by decide)
      (Or.inl ⟨DeviceClass.temperature, rfl, by decide⟩)
      ⟨some (Json.obj [("rtd", Json.obj [("tempout", Json.str "abc")]), ("info", Json.obj [])]),
       true⟩ (Json.str "abc") rfl rfl
      (by intro s hs; injection hs with h; subst h; exact ⟨by decide, by decide⟩)
      (by intro h; exact Json.noConfusion h)).1 (by decide)
  · exact (claim_C6 ⟨"tempout", "Outside Temperature", some "°F", some "temperature",
        some "measurement", none⟩ (by decide)
      (Or.inl ⟨DeviceClass.temperature, rfl, by decide⟩)
      ⟨some (Json.obj [("rtd", Json.obj [("tempout", Json.str "72.5")]), ("info", Json.obj [])]),
       true⟩ (Json.str "72.5") rfl rfl
      (by intro s hs; injection hs with h; subst h; exact ⟨by decide, by decide⟩)
      (by intro h; exact Json.noConfusion h)).2 (PyFloat.finite ⟨725, 1⟩) (by decide)

/-- Claim C7, counterexample to the literal statement: under a configured
zone at utc offset plus sixty minutes, the last update sensor projects the
composed fields 2024-03-05 14:30:00 to a timestamp whose wall clock in the
configured zone is 15:30, not the composed 14:30 the claim (a timestamp in
the station local zone) requires, because dt util as local interprets the
naive composition as UTC and shifts it. -/
theorem claim_C7_counterexample :
    last_update_native_value 60
      ⟨some (Json.obj [("rtd", Json.obj [("date", Json.str "2024/03/05"),
        ("time", Json.str "14:30:00")]), ("info", Json.obj [])]), true⟩ =
      some (SensorValue.time (as_local 60 ⟨2024, 3, 5, 14, 30, 0⟩)) ∧
    localWallClock (as_local 60 ⟨2024, 3, 5, 14, 30, 0⟩) = ⟨2024, 3, 5, 15, 30, 0⟩ ∧
    (⟨2024, 3, 5, 15, 30, 0⟩ : NaiveDateTime) ≠ ⟨2024, 3, 5, 14, 30, 0⟩ :=
  ⟨rfl, by decide, by decide⟩

/-- Claim C7 as amended: the last update sensor composes the date and time
fields of the rtd group, parses them with the fixed format, and converts
the naive result with dt util as local, which interprets it as UTC and
attaches the configured zone, so the denoted instant is the composed
fields read as UTC and the displayed wall clock is preserved only when the
configured offset is zero; a missing or falsy component yields null, and
an unparsable composition yields null through the option map. -/
theorem claim_C7 (tzOffset : Int) (st : CoordState) (hav : available st = true) :
    (rtdLookup st "date" = none → last_update_native_value tzOffset st = none) ∧
    (rtdLookup st "time" = none → last_update_native_value tzOffset st = none) ∧
    (∀ dv : Json, rtdLookup st "date" = some dv → dv.truthy = false →
      last_update_native_value tzOffset st = none) ∧
    (∀ tv : Json, rtdLookup st "time" = some tv → tv.truthy = false →
      last_update_native_value tzOffset st = none) ∧
    (∀ dv tv : Json, rtdLookup st "date" = some dv → rtdLookup st "time" = some tv →
      dv.truthy = true → tv.truthy = true →
      last_update_native_value tzOffset st =
        (strptimeDateTime (dv.pyStr ++ " " ++ tv.pyStr)).map
          (fun n => SensorValue.time (as_local tzOffset n))) := by
  refine ⟨?_, ?_, ?_, ?_, ?_⟩
  · intro h
    cases ht : rtdLookup st "time" <;>
      simp [last_update_native_value, hav, h, ht]
  · intro h
    cases hd : rtdLookup st "date" <;>
      simp [last_update_native_value, hav, h, hd]
  · intro dv hd htr
    cases ht : rtdLookup st "time" <;>
      simp [last_update_native_value, hav, hd, ht, htr]
  · intro tv ht htr
    cases hd : rtdLookup st "date" <;>
      simp [last_update_native_value, hav, hd, ht, htr]
  · intro dv tv hd ht hdt htt
    cases hp : strptimeDateTime (dv.pyStr ++ " " ++ tv.pyStr) <;>
      simp [last_update_native_value, hav, hd, ht, hdt, htt, hp]

/-- Witness for claim C7 at a payload with a well formed date and time
under a configured offset of plus sixty minutes. -/
theorem claim_C7_witness :
    last_update_native_value 60
      ⟨some (Json.obj [("rtd", Json.obj [("date", Json.str "2024/03/05"),
        ("time", Json.str "14:30:00")]), ("info", Json.obj [])]), true⟩ =
      some (SensorValue.time (as_local 60 ⟨2024, 3, 5, 14, 30, 0⟩)) := by
  have h := (claim_C7 60
      ⟨some (Json.obj [("rtd", Json.obj [("date", Json.str "2024/03/05"),
        ("time", Json.str "14:30:00")]), ("info", Json.obj [])]), true⟩ rfl).2.2.2.2
    (Json.str "2024/03/05") (Json.str "14:30:00") rfl rfl (by decide) (by decide)
  rw [h]
  exact rfl

/-- Claim C10, counterexamples to the literal statement: a 2xx response
whose body is valid JSON but not a JSON object, and a 2xx response whose
body is a JSON object carrying a null info member, are both rejected by
host validation with a ConnectionError (the attribute access that the
source performs on them raises), so not every 2xx JSON response is
accepted. -/
theorem claim_C10_counterexample :
    validate_host_connection "192.168.1.5" (.response 200 (.ok (Json.arr []))) =
      .connectionError "An unexpected error occurred" ∧
    validate_host_connection "192.168.1.5"
      (.response 200 (.ok (Json.obj [("info", Json.null)]))) =
      .connectionError "An unexpected error occurred" :=
  ⟨rfl, rfl⟩

/-- Claim C10 as amended: host validation accepts any 2xx response whose
body decodes to a JSON object with no info member or with an object info
member, with no check for the rtd or info groups beyond that attribute
access; an absent info member makes both lookups fall back, an absent wid
field makes the unique id fall back to the prefixed host, and an absent
stnname field makes the title fall back to the host. -/
theorem claim_C10 (host : String) (s : Nat) (hs : s < 400)
    (fields : List (String × Json)) :
    ((Json.obj fields).getKey "info" = none →
      validate_host_connection host (.response s (.ok (Json.obj fields))) =
        .ok ("vantage_weather_" ++ host) host) ∧
    (∀ infoFields : List (String × Json),
      (Json.obj fields).getKey "info" = some (Json.obj infoFields) →
      ∃ uid title,
        validate_host_connection host (.response s (.ok (Json.obj fields))) = .ok uid title ∧
        ((Json.obj infoFields).getKey "wid" = none → uid = "vantage_weather_" ++ host) ∧
        ((Json.obj infoFields).getKey "stnname" = none → title = host)) := by
  have h400 : ¬ (400 ≤ s) := by omega
  constructor
  · intro h
    simp [validate_host_connection, h400, h]
  · intro infoFields h
    refine ⟨(match (Json.obj infoFields).getKey "wid" with
         | some v => if v.truthy then v.pyStr else "vantage_weather_" ++ host
         | none => "vantage_weather_" ++ host),
        (match (Json.obj infoFields).getKey "stnname" with
         | some v => if v.truthy then v.pyStr else host
         | none => host), ?_, ?_, ?_⟩
    · simp [validate_host_connection, h400, h]
    · intro hw
      rw [hw]
    · intro hs2
      rw [hs2]

/-- Witness for claim C10 at two concrete object payloads: one with no info
member, one with an empty object info member lacking wid and stnname. -/
theorem claim_C10_witness :
    validate_host_connection "192.168.1.10"
      (.response 200 (.ok (Json.obj [("rtd", Json.obj [])]))) =
      .ok "vantage_weather_192.168.1.10" "192.168.1.10" ∧
    validate_host_connection "192.168.1.10"
      (.response 200 (.ok (Json.obj [("info", Json.obj [])]))) =
      .ok "vantage_weather_192.168.1.10" "192.168.1.10" := by
  constructor
  · exact (claim_C10 "192.168.1.10" 200 (by decide) [("rtd", Json.obj [])]).1 rfl
  · obtain ⟨uid, title, h1, h2, h3⟩ :=
      (claim_C10 "192.168.1.10" 200 (by decide) [("info", Json.obj [])]).2 [] rfl
    rw [h2 rfl, h3 rfl] at h1
    exact h1

end VantageWeather
